import Mathlib

/-!
Verification development for the GWAS track processor of pyGenomeTracks
(`pygenometracks/tracks/GwasTrack.py`).

The embedding models the two relevant methods of `GwasTrack`:

* `process_gwas` — reads the tab-delimited table into a data frame,
  checks the required columns `CHR`, `BP`, `SNP`, `P`, adds default
  `CS`/`INT` columns when absent, optionally applies the `-log10`
  transform to the `P` column, and computes the rounded-up column
  maximum used as the default axis ceiling.
* `plot` — resolves the effective axis ceiling (`y_axis_max_val`
  override when truthy, else the computed maximum), clamps displayed
  values by the local `floor` closure for format `PP`, corrects the
  ceiling to 1 for `PP` with a console warning, and partitions the
  records into a grey base layer, a highlighted credible-set layer
  (rows with `CS == 1`) and a per-highlighted-row label list.

Numeric modelling: Python floats are idealised as extended rationals
(`PVal`): a finite rational, plus `+inf`, `-inf` and `NaN`, with the
IEEE comparison convention that every comparison involving `NaN` is
false.  `numpy.log10` on a positive float is represented by an
arbitrary function `l10 : ℚ → ℚ` that every theorem quantifies over;
what matters for the claims is its totality behaviour on non-positive
inputs (`log10 0 = -inf`, `log10 x = NaN` for `x < 0`, emitting only a
runtime warning, never an exception), which is modelled exactly.

Data-frame modelling: a `DF` is a header (list of column names) plus a
list of rows, each row a list of `Cell`s.  A `Cell` is a string, an
integer, a float (`PVal`, with `NaN` standing for a missing value as
pandas stores it) or `null` (a missing value in a non-numeric column).
`pandas.read_csv` itself is outside the program text; its output is the
arbitrary `DF` the theorems quantify over.  Cells of the `P` column are
read as floats (`cellToP`), matching pandas' parse of a numeric column;
a string-valued `P` cell is mapped to `NaN`, an idealisation the claims
never touch.  The elementwise comparison `df.CS == 1` is `cellEqOne`,
with Python semantics: a string never equals the integer 1.

Exceptions are modelled by `Except TrackError`: `schemaError` is the
`ValueError` raised for a missing required column, `configError` the
`ValueError` for an unrecognised `y_values_format`, and `nameError`
models the Python `NameError` that would be raised if the overlay code
used the local variables `sub` or `names` without them having been
assigned.  Plot styling (colors, marker sizes, fonts) does not affect
any modelled output and is omitted.
-/

/-- Extended rational modelling an idealised Python float: finite value,
positive infinity, negative infinity, or NaN. -/
inductive PVal where
  | fin (q : ℚ)
  | pinf
  | ninf
  | nan
deriving DecidableEq, Repr

/-- Python `<` on floats: any comparison with NaN is false; infinities
compare in the usual way. -/
def plt : PVal → PVal → Bool
  | .nan, _ => false
  | _, .nan => false
  | .fin a, .fin b => decide (a < b)
  | .fin _, .pinf => true
  | .ninf, .fin _ => true
  | .ninf, .pinf => true
  | _, _ => false

/-- Python `>` on floats. -/
def pgt (a b : PVal) : Bool := plt b a

/-- Division of a float by 20 (`max_y/20` in the source): infinities and
NaN are preserved, finite values divide exactly. -/
def pdiv20 : PVal → PVal
  | .fin q => .fin (q / 20)
  | .pinf => .pinf
  | .ninf => .ninf
  | .nan => .nan

/-- `numpy.ceil`: identity on infinities and NaN, ceiling on finite
values (`Rat.ceil`, the smallest integer greater than or equal). -/
def pceil : PVal → PVal
  | .fin q => .fin ((q.ceil : ℤ) : ℚ)
  | .pinf => .pinf
  | .ninf => .ninf
  | .nan => .nan

/-- Binary maximum that skips NaN, the accumulator step of pandas
`Series.max()` (`skipna=True`, the default). -/
def pmax2 (a b : PVal) : PVal :=
  match a, b with
  | .nan, b => b
  | a, .nan => a
  | a, b => if plt a b then b else a

/-- pandas `Series.max()`: maximum of the list skipping NaN; NaN on an
empty or all-NaN series. -/
def seriesMax (l : List PVal) : PVal := l.foldl pmax2 .nan

/-- Model of `-numpy.log10` on a float, parametrised by an arbitrary
`l10 : ℚ → ℚ` standing for real `log10` on positive rationals: positive
finite inputs map to `-(l10 q)`; `0` maps to `+inf` (numpy emits a
divide-by-zero warning and returns `-inf`, negated); negative inputs
map to NaN (numpy invalid-value warning).  No case raises. -/
def neglog10 (l10 : ℚ → ℚ) : PVal → PVal
  | .fin q => if 0 < q then .fin (-(l10 q)) else if q = 0 then .pinf else .nan
  | .pinf => .ninf
  | .ninf => .nan
  | .nan => .nan

/-- A cell of the data frame: string, integer, float, or missing value
in a non-numeric column. -/
inductive Cell where
  | str (s : String)
  | int (z : ℤ)
  | num (v : PVal)
  | null
deriving DecidableEq, Repr

/-- Read a cell of the `P` column as a float, as pandas parses a numeric
column: floats stay, integers widen, missing values are NaN.  A string
cell is idealised to NaN (a textual `P` column is outside the claims). -/
def cellToP : Cell → PVal
  | .num v => v
  | .int z => .fin (z : ℚ)
  | .null => .nan
  | .str _ => .nan

/-- Elementwise Python comparison `cell == 1` as pandas evaluates
`df.CS == 1` and `row['INT'] == 1`: true for the integer 1 and the
float 1.0, false for every string (including `'0'` and `'1'`),
for NaN and for missing values. -/
def cellEqOne : Cell → Bool
  | .int z => decide (z = 1)
  | .num (.fin q) => decide (q = 1)
  | _ => false

/-- The cell-level `-log10` transform applied by
`df['P'].apply(lambda v: -np.log10(v))`. -/
def cellNegLog10 (l10 : ℚ → ℚ) (c : Cell) : Cell := .num (neglog10 l10 (cellToP c))

/-- A pandas data frame: header of column names plus rows of cells. -/
structure DF where
  cols : List String
  rows : List (List Cell)
deriving DecidableEq, Repr

/-- Column lookup `df[c]`: the list of cells of column `c`, empty when
the column is absent.  A row shorter than the header yields `null` in
the missing positions (a rectangular frame never does). -/
def getCol (df : DF) (c : String) : List Cell :=
  match df.cols.findIdx? (· == c) with
  | some i => df.rows.map (fun r => r.getD i .null)
  | none => []

/-- Column assignment `df[c] = v` for a fresh column with a constant
value, as in `df['CS'] = '0'`. -/
def addCol (df : DF) (c : String) (v : Cell) : DF :=
  ⟨df.cols ++ [c], df.rows.map (fun r => r ++ [v])⟩

/-- In-place column transform `df[c] = df[c].apply(f)`. -/
def mapCol (df : DF) (c : String) (f : Cell → Cell) : DF :=
  match df.cols.findIdx? (· == c) with
  | some i => ⟨df.cols, df.rows.map (fun r => r.set i (f (r.getD i .null)))⟩
  | none => df

/-- Row filter `df[p(df[c])]`, as in `df[df.CS == 1]`. -/
def filterRows (df : DF) (c : String) (p : Cell → Bool) : DF :=
  match df.cols.findIdx? (· == c) with
  | some i => ⟨df.cols, df.rows.filter (fun r => p (r.getD i .null))⟩
  | none => df

/-- The `P` column read as floats. -/
def colP (df : DF) : List PVal := (getCol df "P").map cellToP

/-- Errors surfaced by the track: `schemaError` for the `ValueError` on
a missing required column, `configError` for the `ValueError` on an
unrecognised `y_values_format`, `nameError` for the Python `NameError`
a use of an unassigned local variable would raise. -/
inductive TrackError where
  | schemaError (c : String)
  | configError (fmt : String)
  | nameError (v : String)
deriving DecidableEq, Repr

/-- The required columns of the `.gwas` format, in the order the source
checks them. -/
def requiredColumns : List String := ["CHR", "BP", "SNP", "P"]

/-- Model of `GwasTrack.process_gwas`: check the required columns
(raising on the first missing one), add string-`'0'` default columns
`CS` and `INT` when absent, apply the `-log10` transform to `P` when
`y_values_format` is `-log10`, and return the frame together with
`np.ceil(df['P'].max())`. -/
def process_gwas (l10 : ℚ → ℚ) (fmt : String) (df : DF) :
    Except TrackError (DF × PVal) :=
  match requiredColumns.find? (fun c => ! df.cols.contains c) with
  | some c => .error (.schemaError c)
  | none =>
    let df1 := if df.cols.contains "CS" then df else addCol df "CS" (.str "0")
    let df2 := if df1.cols.contains "INT" then df1 else addCol df1 "INT" (.str "0")
    let df3 := if fmt = "-log10" then mapCol df2 "P" (cellNegLog10 l10) else df2
    .ok (df3, pceil (seriesMax (colP df3)))

/-- The local closure `floor` of `GwasTrack.plot`, at a given current
value of the captured variable `max_y`: values above 0.95 pin to 0.95,
values below `max_y/20` raise to `max_y/20`, the rest pass through. -/
def floor (max_y : PVal) (val : PVal) : PVal :=
  if pgt val (.fin (95/100)) then .fin (95/100)
  else if plt val (pdiv20 max_y) then pdiv20 max_y
  else val

/-- The outputs of one `plot` call that the claims speak about: console
messages printed, the y-axis limits set (bottom, top) when `set_ylim`
is called, the base scatter layer (x cells and y floats), the
credible-set scatter layer, and the label list (one cell per
highlighted row: the `SNP` cell or the empty string). -/
structure RenderOut where
  warnings : List String
  ylim : Option (ℚ × PVal)
  baseX : List Cell
  baseY : List PVal
  csX : List Cell
  csY : List PVal
  labels : List Cell
deriving DecidableEq, Repr

/-- The label list `names` built by
`sub.apply(lambda row: row['SNP'] if row['INT'] == 1 else '', axis=1)`:
one entry per row of `sub`, the `SNP` cell when `INT == 1` and the
empty string otherwise.  (The empty-list fallback for absent columns is
unreachable from `plot`, where `SNP` is required and `INT` was checked.) -/
def rowsLabels (df : DF) : List Cell :=
  match df.cols.findIdx? (· == "SNP"), df.cols.findIdx? (· == "INT") with
  | some i, some j =>
      df.rows.map (fun r => if cellEqOne (r.getD j .null) then r.getD i .null else .str "")
  | _, _ => []

/-- The overlay part of `GwasTrack.plot` (lines after the base
scatter): when `CS` is a column, `sub` is the `CS == 1` restriction and
the highlight coordinates are its `BP` and (for `PP`, re-clamped with
the current `max_y`) `P` values; otherwise `x`/`y` keep their base
values and `sub` stays unassigned.  The `INT` block then builds `names`
from `sub` (a `NameError` if `sub` is unassigned), and the final
`print`/`text` loop uses `names` (a `NameError` if the `INT` block did
not run). -/
def overlay (df : DF) (fmt : String) (max_y : PVal) (warns : List String)
    (ylim : Option (ℚ × PVal)) (baseX : List Cell) (baseY : List PVal) :
    Except TrackError RenderOut :=
  let subOpt : Option DF :=
    if df.cols.contains "CS" then some (filterRows df "CS" cellEqOne) else none
  let cs : List Cell × List PVal :=
    match subOpt with
    | some sub =>
        (getCol sub "BP",
         if fmt = "PP" then (colP sub).map (floor max_y) else colP sub)
    | none => (baseX, baseY)
  if df.cols.contains "INT" then
    match subOpt with
    | some sub => .ok ⟨warns, ylim, baseX, baseY, cs.1, cs.2, rowsLabels sub⟩
    | none => .error (.nameError "sub")
  else .error (.nameError "names")

/-- The warning printed when a `PP` axis ceiling exceeds 1. -/
def ppWarning : String := "Y axis cannot be bigger than 1 for Posterior Probabilities!"

/-- The effective axis ceiling before the `PP` correction:
`if self.properties['y_axis_max_val']: max_y = self.properties['y_axis_max_val']`.
Python truthiness: `None` and `0` leave the computed maximum in place. -/
def effMax (ymax : Option ℚ) (maxval : PVal) : PVal :=
  match ymax with
  | some q => if q = 0 then maxval else .fin q
  | none => maxval

/-- Model of `GwasTrack.plot`: load via `process_gwas`, override the
axis ceiling with a truthy `y_axis_max_val`, then branch on the format.
For `PP` the base `P` values are clamped by `floor` with the
pre-correction `max_y` (the `apply` on line 117 runs before the
correction on lines 118–120); the correction to 1 then updates the
captured `max_y`, so the highlight layer's later `apply(floor)` sees
the corrected value.  For `-log10` and `pval` no clamping happens;
`pval` sets no y-limits and echoes the format to the console.  An
unrecognised format raises `ValueError`. -/
def plot (l10 : ℚ → ℚ) (fmt : String) (ymax : Option ℚ) (df0 : DF) :
    Except TrackError RenderOut :=
  match process_gwas l10 fmt df0 with
  | .error e => .error e
  | .ok (df, maxval) =>
    let max_y0 : PVal := effMax ymax maxval
    let baseX := getCol df "BP"
    if fmt = "PP" then
      let baseY := (colP df).map (floor max_y0)
      let corrected := pgt max_y0 (.fin 1)
      let warns := if corrected then [ppWarning] else []
      let max_y1 := if corrected then PVal.fin 1 else max_y0
      overlay df fmt max_y1 warns (some (0, max_y1)) baseX baseY
    else if fmt = "-log10" then
      overlay df fmt max_y0 [] (some (0, max_y0)) baseX (colP df)
    else if fmt = "pval" then
      overlay df fmt max_y0 [fmt] none baseX (colP df)
    else .error (.configError fmt)

/-- Field data for one fully-populated association record, used to build
the concrete tables the theorems quantify over. -/
structure GRow where
  chr : String
  bp : ℤ
  snp : String
  p : ℚ
  cs : ℤ
  intf : ℤ
deriving DecidableEq, Repr

/-- The row of cells for a `GRow` in a six-column table
`CHR, BP, SNP, P, CS, INT`. -/
def mkRow (r : GRow) : List Cell :=
  [.str r.chr, .int r.bp, .str r.snp, .num (.fin r.p), .int r.cs, .int r.intf]

/-- A table with all six columns `CHR, BP, SNP, P, CS, INT`, integer
credible-set and interest flags, and finite `P` values. -/
def mkDF (rs : List GRow) : DF :=
  ⟨["CHR", "BP", "SNP", "P", "CS", "INT"], rs.map mkRow⟩

/-- The row of cells for a `GRow` in a four-column table (no `CS`/`INT`
in the input file; the flags of the `GRow` are ignored). -/
def mkRow4 (r : GRow) : List Cell :=
  [.str r.chr, .int r.bp, .str r.snp, .num (.fin r.p)]

/-- A table with only the required columns `CHR, BP, SNP, P`. -/
def mkDF4 (rs : List GRow) : DF :=
  ⟨["CHR", "BP", "SNP", "P"], rs.map mkRow4⟩

/-- A concrete stand-in for `log10` used in closed witness statements
(the theorems hold for every `l10`). -/
def l10zero : ℚ → ℚ := fun _ => 0

/-- The row of a six-column table after the `-log10` transform of the
`P` cell. -/
def mkRowLog (l10 : ℚ → ℚ) (r : GRow) : List Cell :=
  [.str r.chr, .int r.bp, .str r.snp, .num (neglog10 l10 (.fin r.p)), .int r.cs, .int r.intf]

/-- The loaded frame for a six-column table under format `-log10`. -/
def mkDFLog (l10 : ℚ → ℚ) (rs : List GRow) : DF :=
  ⟨["CHR", "BP", "SNP", "P", "CS", "INT"], rs.map (mkRowLog l10)⟩

/-- The row of a four-column table after the loader appended the default
`CS` and `INT` cells (the string `'0'`). -/
def mkRowNoCS (r : GRow) : List Cell :=
  [.str r.chr, .int r.bp, .str r.snp, .num (.fin r.p), .str "0", .str "0"]

/-- The loaded frame for a four-column table (defaults appended) under a
format other than `-log10`. -/
def dfNoCS (rs : List GRow) : DF :=
  ⟨["CHR", "BP", "SNP", "P", "CS", "INT"], rs.map mkRowNoCS⟩

/-- The row of a four-column table after default `CS`/`INT` cells and
the `-log10` transform. -/
def mkRowNoCSLog (l10 : ℚ → ℚ) (r : GRow) : List Cell :=
  [.str r.chr, .int r.bp, .str r.snp, .num (neglog10 l10 (.fin r.p)), .str "0", .str "0"]

/-- The loaded frame for a four-column table under format `-log10`. -/
def dfNoCSLog (l10 : ℚ → ℚ) (rs : List GRow) : DF :=
  ⟨["CHR", "BP", "SNP", "P", "CS", "INT"], rs.map (mkRowNoCSLog l10)⟩

/-! ### Reduction lemmas for the embedded operations -/

lemma getColBP_mkDF (rs : List GRow) :
    getCol (mkDF rs) "BP" = rs.map (fun r => Cell.int r.bp) := by
  show (rs.map mkRow).map (fun r => r.getD 1 Cell.null) = _
  rw [List.map_map]
  rfl

lemma colP_mkDF (rs : List GRow) :
    colP (mkDF rs) = rs.map (fun r => PVal.fin r.p) := by
  show ((rs.map mkRow).map (fun r => r.getD 3 Cell.null)).map cellToP = _
  rw [List.map_map, List.map_map]
  rfl

lemma filterRows_mkDF (rs : List GRow) :
    filterRows (mkDF rs) "CS" cellEqOne = mkDF (rs.filter fun r => decide (r.cs = 1)) := by
  show DF.mk ["CHR", "BP", "SNP", "P", "CS", "INT"]
      ((rs.map mkRow).filter (fun r => cellEqOne (r.getD 4 Cell.null))) = _
  rw [List.filter_map]
  rfl

lemma rowsLabels_mkDF (rs : List GRow) :
    rowsLabels (mkDF rs) =
      rs.map (fun r => if decide (r.intf = 1) then Cell.str r.snp else Cell.str "") := by
  show (rs.map mkRow).map
      (fun r => if cellEqOne (r.getD 5 Cell.null) then r.getD 2 Cell.null else Cell.str "") = _
  rw [List.map_map]
  rfl

lemma process_gwas_mkDF (l10 : ℚ → ℚ) (fmt : String) (rs : List GRow)
    (h : ¬ fmt = "-log10") :
    process_gwas l10 fmt (mkDF rs) =
      .ok (mkDF rs, pceil (seriesMax (rs.map fun r => PVal.fin r.p))) := by
  show Except.ok
      (ite (fmt = "-log10") (mapCol (mkDF rs) "P" (cellNegLog10 l10)) (mkDF rs),
       pceil (seriesMax (colP
         (ite (fmt = "-log10") (mapCol (mkDF rs) "P" (cellNegLog10 l10)) (mkDF rs))))) = _
  rw [if_neg h, colP_mkDF]

lemma mapColP_mkDF (l10 : ℚ → ℚ) (rs : List GRow) :
    mapCol (mkDF rs) "P" (cellNegLog10 l10) = mkDFLog l10 rs := by
  show DF.mk ["CHR", "BP", "SNP", "P", "CS", "INT"]
      ((rs.map mkRow).map (fun r => r.set 3 (cellNegLog10 l10 (r.getD 3 Cell.null)))) = _
  rw [List.map_map]
  rfl

lemma colP_mkDFLog (l10 : ℚ → ℚ) (rs : List GRow) :
    colP (mkDFLog l10 rs) = rs.map (fun r => neglog10 l10 (.fin r.p)) := by
  show ((rs.map (mkRowLog l10)).map (fun r => r.getD 3 Cell.null)).map cellToP = _
  rw [List.map_map, List.map_map]
  rfl

lemma process_gwas_mkDF_log (l10 : ℚ → ℚ) (rs : List GRow) :
    process_gwas l10 "-log10" (mkDF rs) =
      .ok (mkDFLog l10 rs,
           pceil (seriesMax (rs.map fun r => neglog10 l10 (.fin r.p)))) := by
  show Except.ok
      (mapCol (mkDF rs) "P" (cellNegLog10 l10),
       pceil (seriesMax (colP (mapCol (mkDF rs) "P" (cellNegLog10 l10))))) = _
  rw [mapColP_mkDF, colP_mkDFLog]

lemma addCol2_mkDF4 (rs : List GRow) :
    addCol (addCol (mkDF4 rs) "CS" (.str "0")) "INT" (.str "0") = dfNoCS rs := by
  show DF.mk ["CHR", "BP", "SNP", "P", "CS", "INT"]
      (((rs.map mkRow4).map (fun r => r ++ [Cell.str "0"])).map (fun r => r ++ [Cell.str "0"])) = _
  rw [List.map_map, List.map_map]
  rfl

lemma colP_dfNoCS (rs : List GRow) :
    colP (dfNoCS rs) = rs.map (fun r => PVal.fin r.p) := by
  show ((rs.map mkRowNoCS).map (fun r => r.getD 3 Cell.null)).map cellToP = _
  rw [List.map_map, List.map_map]
  rfl

lemma colP_dfNoCSLog (l10 : ℚ → ℚ) (rs : List GRow) :
    colP (dfNoCSLog l10 rs) = rs.map (fun r => neglog10 l10 (.fin r.p)) := by
  show ((rs.map (mkRowNoCSLog l10)).map (fun r => r.getD 3 Cell.null)).map cellToP = _
  rw [List.map_map, List.map_map]
  rfl

lemma process_gwas_mkDF4 (l10 : ℚ → ℚ) (fmt : String) (rs : List GRow)
    (h : ¬ fmt = "-log10") :
    process_gwas l10 fmt (mkDF4 rs) =
      .ok (dfNoCS rs, pceil (seriesMax (rs.map fun r => PVal.fin r.p))) := by
  show Except.ok
      (ite (fmt = "-log10")
         (mapCol (addCol (addCol (mkDF4 rs) "CS" (.str "0")) "INT" (.str "0")) "P" (cellNegLog10 l10))
         (addCol (addCol (mkDF4 rs) "CS" (.str "0")) "INT" (.str "0")),
       pceil (seriesMax (colP (ite (fmt = "-log10")
         (mapCol (addCol (addCol (mkDF4 rs) "CS" (.str "0")) "INT" (.str "0")) "P" (cellNegLog10 l10))
         (addCol (addCol (mkDF4 rs) "CS" (.str "0")) "INT" (.str "0")))))) = _
  rw [if_neg h, addCol2_mkDF4, colP_dfNoCS]

lemma mapColP_dfNoCS (l10 : ℚ → ℚ) (rs : List GRow) :
    mapCol (dfNoCS rs) "P" (cellNegLog10 l10) = dfNoCSLog l10 rs := by
  show DF.mk ["CHR", "BP", "SNP", "P", "CS", "INT"]
      ((rs.map mkRowNoCS).map (fun r => r.set 3 (cellNegLog10 l10 (r.getD 3 Cell.null)))) = _
  rw [List.map_map]
  rfl

lemma process_gwas_mkDF4_log (l10 : ℚ → ℚ) (rs : List GRow) :
    process_gwas l10 "-log10" (mkDF4 rs) =
      .ok (dfNoCSLog l10 rs,
           pceil (seriesMax (rs.map fun r => neglog10 l10 (.fin r.p)))) := by
  show Except.ok
      (mapCol (addCol (addCol (mkDF4 rs) "CS" (.str "0")) "INT" (.str "0")) "P" (cellNegLog10 l10),
       pceil (seriesMax (colP
         (mapCol (addCol (addCol (mkDF4 rs) "CS" (.str "0")) "INT" (.str "0")) "P" (cellNegLog10 l10))))) = _
  rw [addCol2_mkDF4, mapColP_dfNoCS, colP_dfNoCSLog]

lemma overlay_isOk (df : DF) (fmt : String) (m : PVal) (w : List String)
    (yl : Option (ℚ × PVal)) (bx : List Cell) (byy : List PVal)
    (hCS : df.cols.contains "CS" = true) (hINT : df.cols.contains "INT" = true) :
    overlay df fmt m w yl bx byy =
      .ok ⟨w, yl, bx, byy,
           getCol (filterRows df "CS" cellEqOne) "BP",
           (if fmt = "PP"
            then (colP (filterRows df "CS" cellEqOne)).map (floor m)
            else colP (filterRows df "CS" cellEqOne)),
           rowsLabels (filterRows df "CS" cellEqOne)⟩ := by
  unfold overlay
  rw [hCS, hINT]
  rfl

lemma plot_PP_eq (l10 : ℚ → ℚ) (ymax : Option ℚ) (df0 df : DF) (m : PVal)
    (h : process_gwas l10 "PP" df0 = .ok (df, m)) :
    plot l10 "PP" ymax df0 =
      overlay df "PP"
        (if pgt (effMax ymax m) (.fin 1) then PVal.fin 1 else effMax ymax m)
        (if pgt (effMax ymax m) (.fin 1) then [ppWarning] else [])
        (some (0, if pgt (effMax ymax m) (.fin 1) then PVal.fin 1 else effMax ymax m))
        (getCol df "BP") ((colP df).map (floor (effMax ymax m))) := by
  unfold plot
  rw [h]
  rfl

lemma plot_log_eq (l10 : ℚ → ℚ) (ymax : Option ℚ) (df0 df : DF) (m : PVal)
    (h : process_gwas l10 "-log10" df0 = .ok (df, m)) :
    plot l10 "-log10" ymax df0 =
      overlay df "-log10" (effMax ymax m) [] (some (0, effMax ymax m))
        (getCol df "BP") (colP df) := by
  unfold plot
  rw [h]
  rfl

lemma plot_pval_eq (l10 : ℚ → ℚ) (ymax : Option ℚ) (df0 df : DF) (m : PVal)
    (h : process_gwas l10 "pval" df0 = .ok (df, m)) :
    plot l10 "pval" ymax df0 =
      overlay df "pval" (effMax ymax m) ["pval"] none
        (getCol df "BP") (colP df) := by
  unfold plot
  rw [h]
  rfl

lemma mapCol_cols (df : DF) (c : String) (f : Cell → Cell) :
    (mapCol df c f).cols = df.cols := by
  unfold mapCol
  split <;> rfl

lemma mapCol_numRows (df : DF) (c : String) (f : Cell → Cell) :
    (mapCol df c f).rows.length = df.rows.length := by
  unfold mapCol
  split <;> simp

lemma addCol_numRows (df : DF) (c : String) (v : Cell) :
    (addCol df c v).rows.length = df.rows.length := by
  simp [addCol]

lemma contains_addCol_self (df : DF) (c : String) (v : Cell) :
    (addCol df c v).cols.contains c = true := by
  simp [addCol]

lemma contains_addCol_mono (df : DF) (c c' : String) (v : Cell)
    (h : df.cols.contains c' = true) :
    (addCol df c v).cols.contains c' = true := by
  simp [addCol] at *
  exact Or.inl h

/-- The frame `process_gwas` returns once the required-column check
has passed: default columns added, then the optional `-log10` transform. -/
def pgResult (l10 : ℚ → ℚ) (fmt : String) (df : DF) : DF :=
  let df1 := if df.cols.contains "CS" then df else addCol df "CS" (.str "0")
  let df2 := if df1.cols.contains "INT" then df1 else addCol df1 "INT" (.str "0")
  if fmt = "-log10" then mapCol df2 "P" (cellNegLog10 l10) else df2

lemma process_gwas_of_find_none (l10 : ℚ → ℚ) (fmt : String) (df : DF)
    (hfind : requiredColumns.find? (fun c => ! df.cols.contains c) = none) :
    process_gwas l10 fmt df =
      .ok (pgResult l10 fmt df, pceil (seriesMax (colP (pgResult l10 fmt df)))) := by
  unfold process_gwas
  rw [hfind]
  rfl

lemma pgResult_contains (l10 : ℚ → ℚ) (fmt : String) (df : DF) :
    (pgResult l10 fmt df).cols.contains "CS" = true ∧
    (pgResult l10 fmt df).cols.contains "INT" = true := by
  unfold pgResult
  rw [show ∀ d : DF, (ite (fmt = "-log10") (mapCol d "P" (cellNegLog10 l10)) d).cols = d.cols
        from fun d => by split <;> simp [mapCol_cols]]
  have key : ∀ (d : DF), d.cols.contains "CS" = true →
      (ite (d.cols.contains "INT" = true) d (addCol d "INT" (.str "0"))).cols.contains "CS" = true ∧
      (ite (d.cols.contains "INT" = true) d (addCol d "INT" (.str "0"))).cols.contains "INT" = true := by
    intro d hd
    constructor
    · split
      · exact hd
      · exact contains_addCol_mono d "INT" "CS" (.str "0") hd
    · split
      · assumption
      · exact contains_addCol_self d "INT" (.str "0")
  apply key
  split
  · assumption
  · exact contains_addCol_self df "CS" (.str "0")

lemma pgResult_numRows (l10 : ℚ → ℚ) (fmt : String) (df : DF) :
    (pgResult l10 fmt df).rows.length = df.rows.length := by
  unfold pgResult
  have h1 : ∀ (d : DF) c v, (ite (d.cols.contains c = true) d (addCol d c v)).rows.length
      = d.rows.length := by
    intro d c v
    split
    · rfl
    · exact addCol_numRows d c v
  have h2 : ∀ (d : DF), (ite (fmt = "-log10") (mapCol d "P" (cellNegLog10 l10)) d).rows.length
      = d.rows.length := by
    intro d
    split
    · exact mapCol_numRows d "P" (cellNegLog10 l10)
    · rfl
  rw [h2, h1, h1]

lemma process_gwas_ok_cols (l10 : ℚ → ℚ) (fmt : String) (df df' : DF) (m : PVal)
    (h : process_gwas l10 fmt df = .ok (df', m)) :
    df'.cols.contains "CS" = true ∧ df'.cols.contains "INT" = true := by
  unfold process_gwas at h
  split at h
  · exact Except.noConfusion h
  · rw [Except.ok.injEq, Prod.mk.injEq] at h
    obtain ⟨rfl, -⟩ := h
    exact pgResult_contains l10 fmt df

lemma process_gwas_error (l10 : ℚ → ℚ) (fmt : String) (df : DF) (e : TrackError)
    (h : process_gwas l10 fmt df = .error e) : ∃ c, e = .schemaError c := by
  unfold process_gwas at h
  split at h
  · rename_i c hc
    rw [Except.error.injEq] at h
    exact ⟨c, h.symm⟩
  · exact Except.noConfusion h

lemma find_required_none (df : DF)
    (h : ∀ c ∈ requiredColumns, df.cols.contains c = true) :
    requiredColumns.find? (fun c => ! df.cols.contains c) = none := by
  rw [List.find?_eq_none]
  intro c hc
  rw [h c hc]
  simp

lemma process_gwas_ok_of_required (l10 : ℚ → ℚ) (fmt : String) (df : DF)
    (h : ∀ c ∈ requiredColumns, df.cols.contains c = true) :
    ∃ df' m, process_gwas l10 fmt df = .ok (df', m) ∧
      df'.rows.length = df.rows.length := by
  exact ⟨pgResult l10 fmt df, _, process_gwas_of_find_none l10 fmt df (find_required_none df h),
    pgResult_numRows l10 fmt df⟩

lemma plot_error_cases (l10 : ℚ → ℚ) (fmt : String) (ymax : Option ℚ) (df : DF)
    (e : TrackError) (h : plot l10 fmt ymax df = .error e) :
    (∃ c, e = .schemaError c) ∨ e = .configError fmt := by
  unfold plot at h
  split at h
  · rename_i e' he
    rw [Except.error.injEq] at h
    subst h
    exact Or.inl (process_gwas_error l10 fmt df e' he)
  · rename_i df' m hok
    obtain ⟨hCS, hINT⟩ := process_gwas_ok_cols l10 fmt df df' m hok
    split at h
    · rw [overlay_isOk _ _ _ _ _ _ _ hCS hINT] at h
      exact Except.noConfusion h
    · split at h
      · rw [overlay_isOk _ _ _ _ _ _ _ hCS hINT] at h
        exact Except.noConfusion h
      · split at h
        · rw [overlay_isOk _ _ _ _ _ _ _ hCS hINT] at h
          exact Except.noConfusion h
        · rw [Except.error.injEq] at h
          exact Or.inr h.symm

lemma effMax_some (q : ℚ) (m : PVal) (h : ¬ q = 0) : effMax (some q) m = .fin q := by
  simp [effMax, h]

lemma getColCS_dfNoCS (rs : List GRow) :
    getCol (dfNoCS rs) "CS" = rs.map (fun _ => Cell.str "0") := by
  show (rs.map mkRowNoCS).map (fun r => r.getD 4 Cell.null) = _
  rw [List.map_map]
  rfl

lemma getColCS_dfNoCSLog (l10 : ℚ → ℚ) (rs : List GRow) :
    getCol (dfNoCSLog l10 rs) "CS" = rs.map (fun _ => Cell.str "0") := by
  show (rs.map (mkRowNoCSLog l10)).map (fun r => r.getD 4 Cell.null) = _
  rw [List.map_map]
  rfl

lemma filterRows_dfNoCS (rs : List GRow) :
    filterRows (dfNoCS rs) "CS" cellEqOne =
      ⟨["CHR", "BP", "SNP", "P", "CS", "INT"], []⟩ := by
  show DF.mk ["CHR", "BP", "SNP", "P", "CS", "INT"]
      ((rs.map mkRowNoCS).filter (fun r => cellEqOne (r.getD 4 Cell.null))) = _
  rw [List.filter_map,
    show ((fun r => cellEqOne (r.getD 4 Cell.null)) ∘ mkRowNoCS) = (fun _ => false) from rfl,
    List.filter_false]
  rfl

lemma filterRows_dfNoCSLog (l10 : ℚ → ℚ) (rs : List GRow) :
    filterRows (dfNoCSLog l10 rs) "CS" cellEqOne =
      ⟨["CHR", "BP", "SNP", "P", "CS", "INT"], []⟩ := by
  show DF.mk ["CHR", "BP", "SNP", "P", "CS", "INT"]
      ((rs.map (mkRowNoCSLog l10)).filter (fun r => cellEqOne (r.getD 4 Cell.null))) = _
  rw [List.filter_map,
    show ((fun r => cellEqOne (r.getD 4 Cell.null)) ∘ mkRowNoCSLog l10) = (fun _ => false) from rfl,
    List.filter_false]
  rfl

/-! ### Claims -/

/-- C4: loading fails with a schema error (the `ValueError` for a missing
required column) if and only if at least one of the required columns
CHR, BP, SNP, P is absent from the header; and such a failure is fatal
for this track's render — `plot` surfaces the same error. -/
theorem C4_schema_error_iff (l10 : ℚ → ℚ) (fmt : String) (df : DF) :
    ((∃ c, process_gwas l10 fmt df = .error (.schemaError c)) ↔
      ¬ ∀ c ∈ requiredColumns, df.cols.contains c = true) ∧
    (∀ (e : TrackError) (ymax : Option ℚ), process_gwas l10 fmt df = .error e →
      plot l10 fmt ymax df = .error e) := by
  constructor
  · constructor
    · rintro ⟨c, hc⟩ hall
      rw [process_gwas_of_find_none l10 fmt df (find_required_none df hall)] at hc
      exact Except.noConfusion hc
    · intro hnall
      cases hf : requiredColumns.find? (fun c => ! df.cols.contains c) with
      | none =>
        refine absurd (fun c hc => ?_) hnall
        have := List.find?_eq_none.mp hf c hc
        simpa using this
      | some c =>
        refine ⟨c, ?_⟩
        unfold process_gwas
        rw [hf]
  · intro e ymax he
    unfold plot
    rw [he]

/-- C4 witness: a file whose header is only CHR, BP, SNP (no P column)
fails with a schema error. -/
theorem C4_witness :
    (¬ ∀ c ∈ requiredColumns, (DF.mk ["CHR", "BP", "SNP"] []).cols.contains c = true) ∧
    (∃ c, process_gwas l10zero "pval" ⟨["CHR", "BP", "SNP"], []⟩ = .error (.schemaError c)) ∧
    plot l10zero "pval" none ⟨["CHR", "BP", "SNP"], []⟩ = .error (.schemaError "P") :=
  ⟨by decide,
   (C4_schema_error_iff l10zero "pval" ⟨["CHR", "BP", "SNP"], []⟩).1.mpr (by decide),
   (C4_schema_error_iff l10zero "pval" ⟨["CHR", "BP", "SNP"], []⟩).2 (.schemaError "P") none rfl⟩

/-- C10: every table returned by a successful load contains both a CS and
an INT column, so the overlay stage's column-presence checks always pass,
`sub` and `names` are always assigned before use, and `plot` can never
fail with the `NameError` of an unassigned overlay variable. -/
theorem C10_overlay_always_defined :
    (∀ (l10 : ℚ → ℚ) (fmt : String) (df df' : DF) (m : PVal),
       process_gwas l10 fmt df = .ok (df', m) →
       df'.cols.contains "CS" = true ∧ df'.cols.contains "INT" = true) ∧
    (∀ (l10 : ℚ → ℚ) (fmt : String) (ymax : Option ℚ) (df : DF) (v : String),
       plot l10 fmt ymax df ≠ .error (.nameError v)) := by
  refine ⟨process_gwas_ok_cols, ?_⟩
  intro l10 fmt ymax df v h
  rcases plot_error_cases l10 fmt ymax df _ h with ⟨c, hc⟩ | hc <;>
    exact TrackError.noConfusion hc

/-- C10 witness: a loaded four-column table carries the added CS and INT
columns, and a concrete `plot` call cannot be the `NameError` outcome. -/
theorem C10_witness :
    ((dfNoCS []).cols.contains "CS" = true ∧ (dfNoCS []).cols.contains "INT" = true) ∧
    plot l10zero "pval" none (mkDF4 []) ≠ .error (.nameError "sub") :=
  ⟨C10_overlay_always_defined.1 l10zero "pval" (mkDF4 []) (dfNoCS []) _
      (process_gwas_mkDF4 l10zero "pval" [] (by decide)),
   C10_overlay_always_defined.2 l10zero "pval" none (mkDF4 []) "sub"⟩

/-- A table with the required header whose single record has a null CHR
cell and a missing (NaN) P cell. -/
def dfNull : DF :=
  ⟨["CHR", "BP", "SNP", "P"],
   [[Cell.null, Cell.int 5, Cell.str "x", Cell.num PVal.nan]]⟩

/-- C3 counterexample: a table whose single record has a null CHR and a
missing P loads successfully and completely — `process_gwas` performs no
null check, so the load does not fail and the record is kept with its
null fields (the claim asserts the load fails entirely). -/
theorem C3_counterexample :
    process_gwas l10zero "pval" dfNull =
      .ok (⟨["CHR", "BP", "SNP", "P", "CS", "INT"],
            [[Cell.null, Cell.int 5, Cell.str "x", Cell.num PVal.nan,
              Cell.str "0", Cell.str "0"]]⟩,
           PVal.nan) := rfl

/-- C3 amended: loading never inspects field values — whenever the four
required header columns are present, the load succeeds and keeps every
row, null fields included (a missing value loads as NaN); there is no
null-field failure and no partial load. -/
theorem C3_amended_no_null_check (l10 : ℚ → ℚ) (fmt : String) (df : DF)
    (h : ∀ c ∈ requiredColumns, df.cols.contains c = true) :
    ∃ df' m, process_gwas l10 fmt df = .ok (df', m) ∧
      df'.rows.length = df.rows.length :=
  process_gwas_ok_of_required l10 fmt df h

/-- C3 witness: the amended statement applied to the null-field table. -/
theorem C3_witness :
    (∀ c ∈ requiredColumns, dfNull.cols.contains c = true) ∧
    (∃ df' m, process_gwas l10zero "pval" dfNull = .ok (df', m) ∧
       df'.rows.length = dfNull.rows.length) :=
  ⟨by decide, C3_amended_no_null_check l10zero "pval" dfNull (by decide)⟩

/-- C1 counterexample: with format `-log10` and a record whose P is 0, the
load succeeds — `numpy.log10(0)` returns `-inf` with only a runtime
warning, so the transformed P is `+inf` and no error is raised (the claim
asserts the load fails with a `NumericError`). -/
theorem C1_counterexample :
    process_gwas l10zero "-log10" (mkDF [⟨"1", 1, "rs1", 0, 0, 0⟩]) =
      .ok (mkDFLog l10zero [⟨"1", 1, "rs1", 0, 0, 0⟩], PVal.pinf) := rfl

/-- C1 amended: when the format is `-log10`, loading transforms every
record's P value to -log10(P) before any further use, but the load never
fails on non-positive P values: P = 0 becomes `+inf` and P < 0 becomes
NaN (numpy emits only runtime warnings). -/
theorem C1_amended_log_transform (l10 : ℚ → ℚ) (rs : List GRow) :
    (∃ m, process_gwas l10 "-log10" (mkDF rs) = .ok (mkDFLog l10 rs, m)) ∧
    colP (mkDFLog l10 rs) = rs.map (fun r => neglog10 l10 (.fin r.p)) ∧
    (∀ q : ℚ, 0 < q → neglog10 l10 (.fin q) = .fin (-(l10 q))) ∧
    neglog10 l10 (.fin 0) = .pinf ∧
    (∀ q : ℚ, q < 0 → neglog10 l10 (.fin q) = .nan) := by
  refine ⟨⟨_, process_gwas_mkDF_log l10 rs⟩, colP_mkDFLog l10 rs, ?_, ?_, ?_⟩
  · intro q hq
    simp [neglog10, hq]
  · norm_num [neglog10]
  · intro q hq
    simp only [neglog10]
    rw [if_neg (by linarith), if_neg (ne_of_lt hq)]

/-- C1 witness: the amended statement applied to a concrete load together
with concrete transformed values. -/
theorem C1_witness :
    (∃ m, process_gwas l10zero "-log10" (mkDF [⟨"1", 1, "a", 1/10, 0, 0⟩]) =
       .ok (mkDFLog l10zero [⟨"1", 1, "a", 1/10, 0, 0⟩], m)) ∧
    (0:ℚ) < 1/10 ∧
    neglog10 l10zero (.fin (1/10)) = .fin (-(l10zero (1/10))) ∧
    (-1:ℚ) < 0 ∧
    neglog10 l10zero (.fin (-1)) = .nan :=
  ⟨(C1_amended_log_transform l10zero [⟨"1", 1, "a", 1/10, 0, 0⟩]).1,
   by norm_num,
   (C1_amended_log_transform l10zero [⟨"1", 1, "a", 1/10, 0, 0⟩]).2.2.1 (1/10) (by norm_num),
   by norm_num,
   (C1_amended_log_transform l10zero [⟨"1", 1, "a", 1/10, 0, 0⟩]).2.2.2.2 (-1) (by norm_num)⟩

/-- C6: for format PP with an effective axis ceiling of 1, the clamper
maps every finite raw value into [1/20, 19/20]: floor(0.5) = 0.5,
floor(0.96) = 0.95, floor(0.01) = 0.05 = 1/20, and every value above
0.95 is pinned to 0.95. -/
theorem C6_floor_bounds :
    (∀ v : ℚ, ∃ q : ℚ, floor (.fin 1) (.fin v) = .fin q ∧
       1/20 ≤ q ∧ q ≤ 95/100) ∧
    floor (.fin 1) (.fin (1/2)) = .fin (1/2) ∧
    floor (.fin 1) (.fin (96/100)) = .fin (95/100) ∧
    floor (.fin 1) (.fin (1/100)) = .fin (1/20) ∧
    (∀ v : ℚ, 95/100 < v → floor (.fin 1) (.fin v) = .fin (95/100)) := by
  refine ⟨?_, by norm_num [floor, pgt, plt, pdiv20], by norm_num [floor, pgt, plt, pdiv20],
    by norm_num [floor, pgt, plt, pdiv20], ?_⟩
  · intro v
    by_cases h1 : (95:ℚ)/100 < v
    · exact ⟨95/100, by simp [floor, pgt, plt, h1], by norm_num, le_refl _⟩
    · by_cases h2 : v < 1/20
      · refine ⟨1/20, ?_, le_refl _, by norm_num⟩
        simp [floor, pgt, plt, pdiv20, h1, h2]
        intro h3
        exfalso
        rw [show (20:ℚ)⁻¹ = 1/20 by norm_num] at h3
        linarith
      · refine ⟨v, ?_, not_lt.mp h2, not_lt.mp h1⟩
        simp [floor, pgt, plt, pdiv20, h1, h2]
        intro h3
        exfalso
        rw [show (20:ℚ)⁻¹ = 1/20 by norm_num] at h3
        linarith
  · intro v h
    simp [floor, pgt, plt, h]

/-- C6 witness: the general bound and the pin-to-0.95 case at concrete
inputs. -/
theorem C6_witness :
    ((95:ℚ)/100 < 1) ∧ floor (.fin 1) (.fin 1) = .fin (95/100) ∧
    (∃ q : ℚ, floor (.fin 1) (.fin (3/4)) = .fin q ∧ 1/20 ≤ q ∧ q ≤ 95/100) :=
  ⟨by norm_num, C6_floor_bounds.2.2.2.2 1 (by norm_num), C6_floor_bounds.1 (3/4)⟩

/-- C2 counterexample: with format PP and `y_axis_max_val = 2`, a raw
value of 0.01 in the base layer is displayed as 2/20 = 0.1, not as the
claimed `max_y_corrected/20 = 1/20 = 0.05`: the base layer's clamper
runs before the axis-max correction to 1, so its lower bound uses the
uncorrected ceiling 2. -/
theorem C2_counterexample :
    ∃ out, plot l10zero "PP" (some 2) (mkDF [⟨"1", 1, "rs1", 1/100, 0, 0⟩]) = .ok out ∧
      out.baseY = [PVal.fin (1/10)] ∧ (1:ℚ)/10 ≠ 1/20 := by
  have hpg := process_gwas_mkDF l10zero "PP" [⟨"1", 1, "rs1", 1/100, 0, 0⟩] (by decide)
  have hplot := plot_PP_eq l10zero (some 2) _ _ _ hpg
  rw [effMax_some 2 _ (by norm_num),
      overlay_isOk (mkDF [⟨"1", 1, "rs1", 1/100, 0, 0⟩]) _ _ _ _ _ _ rfl rfl,
      colP_mkDF, List.map_map] at hplot
  refine ⟨_, hplot, ?_, by norm_num⟩
  show [floor (PVal.fin 2) (PVal.fin (1/100))] = _
  norm_num [floor, pgt, plt, pdiv20]

/-- C2 amended: for format PP, the base layer's clamper lower bound is
`max_y/20` where `max_y` is the pre-correction axis ceiling (the truthy
`y_axis_max_val` override if present, else the computed maximum), NOT
the post-correction one; only the highlight layer's clamper sees the
corrected ceiling (capped at 1), because the correction reassigns the
variable captured by `floor` after the base layer was already mapped.
With `y_axis_max_val = 2`, a small base-layer value displays as
2/20 = 0.1. -/
theorem C2_amended_preclamp_bound (l10 : ℚ → ℚ) (q : ℚ) (rs : List GRow)
    (hq : ¬ q = 0) :
    ∃ out, plot l10 "PP" (some q) (mkDF rs) = .ok out ∧
      out.baseY = rs.map (fun r => floor (.fin q) (.fin r.p)) ∧
      out.csY = (rs.filter fun r => decide (r.cs = 1)).map
        (fun r => floor (if pgt (.fin q) (.fin 1) then PVal.fin 1 else .fin q) (.fin r.p)) ∧
      (∀ v : ℚ, v < q / 20 → ¬ 95/100 < v → floor (.fin q) (.fin v) = .fin (q / 20)) := by
  have hpg := process_gwas_mkDF l10 "PP" rs (by decide)
  have hplot := plot_PP_eq l10 (some q) (mkDF rs) _ _ hpg
  rw [effMax_some q _ hq,
      overlay_isOk (mkDF rs) _ _ _ _ _ _ rfl rfl, filterRows_mkDF, colP_mkDF,
      colP_mkDF, List.map_map] at hplot
  refine ⟨_, hplot, rfl, ?_, ?_⟩
  · show (if ("PP" : String) = "PP"
        then ((rs.filter fun r => decide (r.cs = 1)).map (fun r => PVal.fin r.p)).map
          (floor (if pgt (.fin q) (.fin 1) then PVal.fin 1 else .fin q))
        else (rs.filter fun r => decide (r.cs = 1)).map (fun r => PVal.fin r.p)) = _
    rw [if_pos rfl, List.map_map]
    rfl
  · intro v h1 h2
    have e1 : pgt (.fin v) (.fin (95/100)) = false := by
      simp [pgt, plt, h2]
    have e2 : plt (.fin v) (pdiv20 (.fin q)) = true := by
      simp [plt, pdiv20, h1]
    unfold floor
    rw [e1, e2]
    rfl

/-- C2 witness: the amended statement applied with override 2 and a raw
value 0.01. -/
theorem C2_witness :
    ¬ (2:ℚ) = 0 ∧
    ∃ out, plot l10zero "PP" (some 2) (mkDF [⟨"1", 2, "rsW", 1/100, 0, 0⟩]) = .ok out ∧
      out.baseY = [floor (.fin 2) (.fin (1/100))] := by
  obtain ⟨out, h1, h2, -, -⟩ :=
    C2_amended_preclamp_bound l10zero 2 [⟨"1", 2, "rsW", 1/100, 0, 0⟩] (by norm_num)
  exact ⟨by norm_num, out, h1, by rw [h2]; rfl⟩

/-- C7: for format PP, whenever the effective axis ceiling exceeds 1 —
whether it is a truthy `y_axis_max_val` override (e.g. 2) or the
computed `max_statistic` with no override — the effective maximum used
for the y-axis limits is 1 after correction, the warning is printed,
and rendering proceeds (the result is `ok`, not an error). -/
theorem C7_axis_correction (l10 : ℚ → ℚ) (ymax : Option ℚ) (rs : List GRow)
    (hgt : pgt (effMax ymax (pceil (seriesMax (rs.map fun r => PVal.fin r.p))))
        (.fin 1) = true) :
    ∃ out, plot l10 "PP" ymax (mkDF rs) = .ok out ∧
      out.ylim = some (0, .fin 1) ∧ ppWarning ∈ out.warnings := by
  have hpg := process_gwas_mkDF l10 "PP" rs (by decide)
  have hplot := plot_PP_eq l10 ymax (mkDF rs) _ _ hpg
  rw [hgt, overlay_isOk (mkDF rs) _ _ _ _ _ _ rfl rfl] at hplot
  simp only [eq_self_iff_true, if_true] at hplot
  exact ⟨_, hplot, rfl, by simp⟩

/-- C7 witness: the correction on a one-record table, both via the
override path (`y_axis_max_val = 2`) and via the computed path (no
override, a P value of 2 giving `max_statistic = 2 > 1`). -/
theorem C7_witness :
    (pgt (effMax (some 2)
        (pceil (seriesMax (([⟨"1", 3, "rsV", 1, 1, 0⟩] : List GRow).map fun r => PVal.fin r.p))))
      (.fin 1) = true) ∧
    (∃ out, plot l10zero "PP" (some 2) (mkDF [⟨"1", 3, "rsV", 1, 1, 0⟩]) = .ok out ∧
       out.ylim = some (0, .fin 1) ∧ ppWarning ∈ out.warnings) ∧
    (pgt (effMax none
        (pceil (seriesMax (([⟨"1", 4, "rsU", 2, 0, 0⟩] : List GRow).map fun r => PVal.fin r.p))))
      (.fin 1) = true) ∧
    (∃ out, plot l10zero "PP" none (mkDF [⟨"1", 4, "rsU", 2, 0, 0⟩]) = .ok out ∧
       out.ylim = some (0, .fin 1) ∧ ppWarning ∈ out.warnings) :=
  ⟨by decide,
   C7_axis_correction l10zero (some 2) [⟨"1", 3, "rsV", 1, 1, 0⟩] (by decide),
   by decide,
   C7_axis_correction l10zero none [⟨"1", 4, "rsU", 2, 0, 0⟩] (by decide)⟩

/-- C8: for formats `pval` and `-log10` the clamper is never applied: in
both the base layer and the highlight layer, the displayed values are
exactly the loaded P column (for `-log10`, the already-transformed one)
and its CS-filtered restriction. -/
theorem C8_no_clamping (l10 : ℚ → ℚ) (fmt : String) (ymax : Option ℚ)
    (df0 df' : DF) (m : PVal)
    (hfmt : fmt = "pval" ∨ fmt = "-log10")
    (h : process_gwas l10 fmt df0 = .ok (df', m)) :
    ∃ out, plot l10 fmt ymax df0 = .ok out ∧
      out.baseY = colP df' ∧ out.csY = colP (filterRows df' "CS" cellEqOne) := by
  obtain ⟨hCS, hINT⟩ := process_gwas_ok_cols l10 fmt df0 df' m h
  rcases hfmt with rfl | rfl
  · have hplot := plot_pval_eq l10 ymax df0 df' m h
    rw [overlay_isOk df' _ _ _ _ _ _ hCS hINT,
        if_neg (show ¬ ("pval" : String) = "PP" by decide)] at hplot
    exact ⟨_, hplot, rfl, rfl⟩
  · have hplot := plot_log_eq l10 ymax df0 df' m h
    rw [overlay_isOk df' _ _ _ _ _ _ hCS hINT,
        if_neg (show ¬ ("-log10" : String) = "PP" by decide)] at hplot
    exact ⟨_, hplot, rfl, rfl⟩

/-- C8 witness: a concrete `pval` plot whose layers are the loaded
values unchanged. -/
theorem C8_witness :
    ∃ out, plot l10zero "pval" none (mkDF [⟨"1", 1, "w1", 1, 1, 1⟩]) = .ok out ∧
      out.baseY = colP (mkDF [⟨"1", 1, "w1", 1, 1, 1⟩]) ∧
      out.csY = colP (filterRows (mkDF [⟨"1", 1, "w1", 1, 1, 1⟩]) "CS" cellEqOne) :=
  C8_no_clamping l10zero "pval" none _ _ _ (Or.inl rfl)
    (process_gwas_mkDF l10zero "pval" [⟨"1", 1, "w1", 1, 1, 1⟩] (by decide))

lemma getColBP_mkDFLog (l10 : ℚ → ℚ) (rs : List GRow) :
    getCol (mkDFLog l10 rs) "BP" = rs.map (fun r => Cell.int r.bp) := by
  show (rs.map (mkRowLog l10)).map (fun r => r.getD 1 Cell.null) = _
  rw [List.map_map]
  rfl

lemma filterRows_mkDFLog (l10 : ℚ → ℚ) (rs : List GRow) :
    filterRows (mkDFLog l10 rs) "CS" cellEqOne =
      mkDFLog l10 (rs.filter fun r => decide (r.cs = 1)) := by
  show DF.mk ["CHR", "BP", "SNP", "P", "CS", "INT"]
      ((rs.map (mkRowLog l10)).filter (fun r => cellEqOne (r.getD 4 Cell.null))) = _
  rw [List.filter_map]
  rfl

lemma rowsLabels_mkDFLog (l10 : ℚ → ℚ) (rs : List GRow) :
    rowsLabels (mkDFLog l10 rs) =
      rs.map (fun r => if decide (r.intf = 1) then Cell.str r.snp else Cell.str "") := by
  show (rs.map (mkRowLog l10)).map
      (fun r => if cellEqOne (r.getD 5 Cell.null) then r.getD 2 Cell.null else Cell.str "") = _
  rw [List.map_map]
  rfl

/-- C5 counterexample: a table with two highlighted records, only one of
which has INT = 1, yields a label list with TWO entries (the second the
empty string), not "exactly one entry per highlighted record with
INT = true": the overlay emits one entry per highlighted record,
empty-string placeholders included. -/
theorem C5_counterexample :
    plot l10zero "pval" none
        (mkDF [⟨"1", 1, "rsA", 1, 1, 1⟩, ⟨"1", 2, "rsB", 1, 1, 0⟩]) =
      .ok ⟨["pval"], none, [.int 1, .int 2], [.fin 1, .fin 1],
           [.int 1, .int 2], [.fin 1, .fin 1], [.str "rsA", .str ""]⟩ ∧
    [Cell.str "rsA", Cell.str ""] ≠ [Cell.str "rsA"] := ⟨rfl, by decide⟩

/-- C5 amended: for every recognised format, the overlay partitions the
records as claimed — base layer all records, highlight layer exactly the
records with CS = 1 — but the label list has one entry per HIGHLIGHTED
record: the record's SNP identifier when INT = 1 and the empty string
otherwise (so its non-empty entries correspond exactly to the
highlighted records with INT = 1).  A table with no CS = 1 records
yields empty highlight and label lists and is still a successful plot. -/
theorem C5_amended_partition (l10 : ℚ → ℚ) (fmt : String) (ymax : Option ℚ)
    (rs : List GRow)
    (hfmt : fmt = "PP" ∨ fmt = "-log10" ∨ fmt = "pval") :
    ∃ out, plot l10 fmt ymax (mkDF rs) = .ok out ∧
      out.baseX = rs.map (fun r => Cell.int r.bp) ∧
      out.csX = (rs.filter fun r => decide (r.cs = 1)).map (fun r => Cell.int r.bp) ∧
      out.labels = (rs.filter fun r => decide (r.cs = 1)).map
        (fun r => if decide (r.intf = 1) then Cell.str r.snp else Cell.str "") := by
  rcases hfmt with rfl | rfl | rfl
  · have hpg := process_gwas_mkDF l10 "PP" rs (by decide)
    have hplot := plot_PP_eq l10 ymax (mkDF rs) _ _ hpg
    rw [overlay_isOk (mkDF rs) _ _ _ _ _ _ rfl rfl, filterRows_mkDF, getColBP_mkDF,
        getColBP_mkDF, rowsLabels_mkDF] at hplot
    exact ⟨_, hplot, rfl, rfl, rfl⟩
  · have hpg := process_gwas_mkDF_log l10 rs
    have hplot := plot_log_eq l10 ymax (mkDF rs) _ _ hpg
    rw [overlay_isOk (mkDFLog l10 rs) _ _ _ _ _ _ rfl rfl, filterRows_mkDFLog,
        getColBP_mkDFLog, getColBP_mkDFLog, rowsLabels_mkDFLog] at hplot
    exact ⟨_, hplot, rfl, rfl, rfl⟩
  · have hpg := process_gwas_mkDF l10 "pval" rs (by decide)
    have hplot := plot_pval_eq l10 ymax (mkDF rs) _ _ hpg
    rw [overlay_isOk (mkDF rs) _ _ _ _ _ _ rfl rfl, filterRows_mkDF, getColBP_mkDF,
        getColBP_mkDF, rowsLabels_mkDF] at hplot
    exact ⟨_, hplot, rfl, rfl, rfl⟩

/-- C5 witness: the spec's three-record example — one record with CS = 1
and INT = 1 — gives a base layer of 3 points, a highlight layer of 1
point, and the label list `[that record's SNP]`. -/
theorem C5_witness :
    ∃ out, plot l10zero "pval" none
        (mkDF [⟨"1", 1, "s1", 1, 1, 1⟩, ⟨"1", 2, "s2", 1, 0, 0⟩, ⟨"1", 3, "s3", 1, 0, 0⟩]) =
      .ok out ∧
      out.baseX.length = 3 ∧ out.csX.length = 1 ∧ out.labels = [Cell.str "s1"] := by
  obtain ⟨out, h1, h2, h3, h4⟩ :=
    C5_amended_partition l10zero "pval" none
      [⟨"1", 1, "s1", 1, 1, 1⟩, ⟨"1", 2, "s2", 1, 0, 0⟩, ⟨"1", 3, "s3", 1, 0, 0⟩]
      (Or.inr (Or.inr rfl))
  refine ⟨out, h1, ?_, ?_, ?_⟩
  · rw [h2]
    rfl
  · rw [h3]
    rfl
  · rw [h4]
    rfl

/-- C9: for every input table whose header lacks a CS column, the loader
fills CS with the string `'0'` for every record, while the highlight
selection keeps rows whose CS equals the integer 1; a string never
equals the integer 1, so for every such table the highlight layer and
the label list are empty — no record is ever highlighted or labeled. -/
theorem C9_default_CS_never_highlights (l10 : ℚ → ℚ) (fmt : String)
    (ymax : Option ℚ) (rs : List GRow)
    (hfmt : fmt = "PP" ∨ fmt = "-log10" ∨ fmt = "pval") :
    (∃ df' m, process_gwas l10 fmt (mkDF4 rs) = .ok (df', m) ∧
       getCol df' "CS" = rs.map (fun _ => Cell.str "0")) ∧
    cellEqOne (Cell.str "0") = false ∧
    (∃ out, plot l10 fmt ymax (mkDF4 rs) = .ok out ∧
       out.csX = [] ∧ out.csY = [] ∧ out.labels = []) := by
  rcases hfmt with rfl | rfl | rfl
  · have hpg := process_gwas_mkDF4 l10 "PP" rs (by decide)
    refine ⟨⟨_, _, hpg, getColCS_dfNoCS rs⟩, rfl, ?_⟩
    have hplot := plot_PP_eq l10 ymax (mkDF4 rs) _ _ hpg
    rw [overlay_isOk (dfNoCS rs) _ _ _ _ _ _ rfl rfl, filterRows_dfNoCS] at hplot
    exact ⟨_, hplot, rfl, rfl, rfl⟩
  · have hpg := process_gwas_mkDF4_log l10 rs
    refine ⟨⟨_, _, hpg, getColCS_dfNoCSLog l10 rs⟩, rfl, ?_⟩
    have hplot := plot_log_eq l10 ymax (mkDF4 rs) _ _ hpg
    rw [overlay_isOk (dfNoCSLog l10 rs) _ _ _ _ _ _ rfl rfl, filterRows_dfNoCSLog] at hplot
    exact ⟨_, hplot, rfl, rfl, rfl⟩
  · have hpg := process_gwas_mkDF4 l10 "pval" rs (by decide)
    refine ⟨⟨_, _, hpg, getColCS_dfNoCS rs⟩, rfl, ?_⟩
    have hplot := plot_pval_eq l10 ymax (mkDF4 rs) _ _ hpg
    rw [overlay_isOk (dfNoCS rs) _ _ _ _ _ _ rfl rfl, filterRows_dfNoCS] at hplot
    exact ⟨_, hplot, rfl, rfl, rfl⟩

/-- C9 witness: a one-record four-column table plotted with format
`pval` highlights and labels nothing. -/
theorem C9_witness :
    ("pval" = "PP" ∨ "pval" = "-log10" ∨ "pval" = "pval") ∧
    (∃ out, plot l10zero "pval" none (mkDF4 [⟨"1", 7, "z", 1, 1, 1⟩]) = .ok out ∧
       out.csX = [] ∧ out.csY = [] ∧ out.labels = []) :=
  ⟨Or.inr (Or.inr rfl),
   (C9_default_CS_never_highlights l10zero "pval" none [⟨"1", 7, "z", 1, 1, 1⟩]
      (Or.inr (Or.inr rfl))).2.2⟩
